import Mathlib

/-!
# Verification of the public_library CRUD service

Shallow embedding of the repository layer (`internal/book` repository,
source part_000) and handler layer (`internal/book/handler.go`) of the
`public_library` Go service, together with proofs of the specification
claims about them.

The database is modelled as the `books` table created in
`internal/db/postgres.go` (`id SERIAL PRIMARY KEY, title TEXT, author TEXT,
isbn TEXT`): a list of rows plus the serial sequence counter.  Each storage
round trip of the Go code (QueryRow/Exec/RowsAffected) appears either as an
explicit outcome parameter (for the error-propagation logic) or as the
Postgres semantics of the concrete SQL string the code builds (for
end-to-end runs against a healthy database).
-/

namespace PublicLibrary

/-- The `Book` entity from `internal/book` (model.go part of handler source). -/
structure Book where
  id : Int
  title : String
  author : String
  isbn : String
deriving Repr, DecidableEq

/-- `PaginationRequest` from the model: page (1-based), page_size, search. -/
structure PaginationRequest where
  page : Int
  pageSize : Int
  search : String
deriving Repr, DecidableEq

/-- `StatusResponse` from the model: the health-check payload. -/
structure StatusResponse where
  status : String
  version : String
  timestamp : String
  message : String
deriving Repr, DecidableEq

/-- An error produced by the storage layer (`database/sql` / Postgres):
either `sql.ErrNoRows` from a `QueryRow().Scan` that matched zero rows, or
any other storage failure carrying its message text. -/
inductive StorageErr where
  | sqlErrNoRows
  | failure (msg : String)
deriving Repr, DecidableEq

/-- An error returned by a Repository method: either the domain-level
`ErrNotFound` (`errors.New("book not found")` in the source) or an
underlying storage error passed through unchanged. -/
inductive RepoErr where
  | errNotFound
  | passthrough (e : StorageErr)
deriving Repr, DecidableEq

/-- `Error()` text of a storage error; `sql.ErrNoRows` has this fixed text
in `database/sql`. -/
def StorageErr.errorText : StorageErr → String
  | .sqlErrNoRows => "sql: no rows in result set"
  | .failure msg => msg

/-- `Error()` text of a repository error, as the handler observes it via
`err.Error()`; `ErrNotFound` is `errors.New("book not found")`. -/
def RepoErr.errorText : RepoErr → String
  | .errNotFound => "book not found"
  | .passthrough e => e.errorText

/-- The state of the `books` table: its rows, and the `SERIAL` sequence
value that the next `INSERT ... RETURNING id` will assign. -/
structure DBState where
  rows : List Book
  nextId : Int
deriving Repr, DecidableEq

/-- Well-formedness of a `books` table produced by the `SERIAL` primary
key: the sequence starts at 1 and every stored id was assigned by a
previous sequence value. -/
def DBState.WF (db : DBState) : Prop :=
  1 ≤ db.nextId ∧ ∀ b ∈ db.rows, b.id < db.nextId

instance (db : DBState) : Decidable db.WF := by
  unfold DBState.WF
  exact instDecidableAnd

/-- Columns of the `books` table, from the schema created idempotently in
`internal/db/postgres.go`. -/
def booksTableColumns : List String := ["id", "title", "author", "isbn"]

/-- Modelled from the spec: `utils.BooksTable`, the table-name constant of
the missing `utils` package; every hard-coded query in the source and the
schema in `postgres.go` use the table name `books`. -/
def BooksTable : String := "books"

/-! ## Repository: ListAllBooks (source part_000, lines 23-102) -/

/-- The WHERE clauses `ListAllBooks` builds: the base condition `1=1`,
plus — when `search` is non-empty — the filter `currency ILIKE ?`. -/
def buildWhereClauses (search : String) : List String :=
  let whereClauses := ["1=1"]
  if search ≠ "" then whereClauses ++ ["currency ILIKE ?"] else whereClauses

/-- `whereSQL := strings.Join(whereClauses, " AND ")`. -/
def whereSQL (search : String) : String :=
  String.intercalate " AND " (buildWhereClauses search)

/-- The pagination arguments `ListAllBooks` appends to the data query:
`limit := req.PageSize` (10 when zero) and `offset := (req.Page-1)*limit`. -/
def paginationArgs (req : PaginationRequest) : Int × Int :=
  let limit := if req.pageSize = 0 then 10 else req.pageSize
  let offset := (req.page - 1) * limit
  (limit, offset)

/-- Postgres executing the count query
`SELECT COUNT(*) FROM books WHERE <whereSQL>` against the `books` schema:
with an empty search the predicate is `1=1` and every row counts; with a
non-empty search the built predicate references the column `currency`,
which does not exist in the `books` table, so the query fails. -/
def dbCountQuery (db : DBState) (search : String) : Except StorageErr Int :=
  if search ≠ "" then
    .error (.failure "ERROR: column \x22currency\x22 does not exist (SQLSTATE 42703)")
  else
    .ok db.rows.length

/-- Postgres executing the data query
`SELECT id, title, author, isbn FROM books WHERE <whereSQL> LIMIT $.. OFFSET $..`:
a non-empty search fails on the missing `currency` column; otherwise a
negative LIMIT or OFFSET is rejected by Postgres, and the window
`drop offset, take limit` of the table is returned. -/
def dbDataQuery (db : DBState) (search : String) (limit offset : Int) :
    Except StorageErr (List Book) :=
  if search ≠ "" then
    .error (.failure "ERROR: column \x22currency\x22 does not exist (SQLSTATE 42703)")
  else if limit < 0 then
    .error (.failure "ERROR: LIMIT must not be negative")
  else if offset < 0 then
    .error (.failure "ERROR: OFFSET must not be negative")
  else
    .ok ((db.rows.drop offset.toNat).take limit.toNat)

/-- `Repository.ListAllBooks`: builds the filter and pagination, issues the
count query then the data query, and returns
`(responses, int64(len(responses)), totalCount)`; any storage error is
returned as-is. -/
def Repository.ListAllBooks (db : DBState) (req : PaginationRequest) :
    Except StorageErr (List Book × Int × Int) :=
  let (limit, offset) := paginationArgs req
  match dbCountQuery db req.search with
  | .error e => .error e
  | .ok totalCount =>
    match dbDataQuery db req.search limit offset with
    | .error e => .error e
    | .ok responses => .ok (responses, (responses.length : Int), totalCount)

/-! ## Repository: GetByID, Create, Update, Delete

The error-handling logic of each method is a function of the outcome of
its storage round trips (source part_000 lines 104-202); the `*Run`
versions instantiate those outcomes with the Postgres semantics of the
method's query against a healthy `books` table. -/

/-- `Repository.GetByID` error logic: `sql.ErrNoRows` becomes
`ErrNotFound`, any other scan failure is returned unchanged, a scanned row
is returned. -/
def Repository.GetByID (scan : Except StorageErr Book) : Except RepoErr Book :=
  match scan with
  | .error e =>
    if e = .sqlErrNoRows then .error .errNotFound else .error (.passthrough e)
  | .ok b => .ok b

/-- Postgres executing `SELECT id, title, author, isbn FROM books WHERE id = $1`
via `QueryRow(...).Scan`: the first matching row, or `sql.ErrNoRows`. -/
def dbSelectByID (db : DBState) (id : Int) : Except StorageErr Book :=
  match db.rows.find? (fun b => b.id = id) with
  | some b => .ok b
  | none => .error .sqlErrNoRows

/-- `GetByID` run against a healthy database. -/
def Repository.GetByIDRun (db : DBState) (id : Int) : Except RepoErr Book :=
  Repository.GetByID (dbSelectByID db id)

/-- `Repository.Create` run against a healthy database:
`INSERT INTO books (title, author, isbn) VALUES ($1,$2,$3) RETURNING id`
appends the row with the sequence-assigned id, which `Scan(&b.ID)` writes
back into the entity. Returns the new table state and the updated entity. -/
def Repository.CreateRun (db : DBState) (b : Book) : DBState × Book :=
  let newBook : Book := { b with id := db.nextId }
  ({ rows := db.rows ++ [newBook], nextId := db.nextId + 1 }, newBook)

/-- `Repository.Update` error logic, as a function of the `ExecContext`
outcome: an exec failure is returned unchanged; a `RowsAffected` failure is
returned unchanged; zero rows affected becomes `ErrNotFound`; otherwise
success (`none`). -/
def Repository.Update (exec : Except StorageErr (Except StorageErr Int)) :
    Option RepoErr :=
  match exec with
  | .error e => some (.passthrough e)
  | .ok rowsAffectedRes =>
    match rowsAffectedRes with
    | .error e => some (.passthrough e)
    | .ok rowsAffected =>
      if rowsAffected = 0 then some .errNotFound else none

/-- Postgres executing
`UPDATE books SET title=$1, author=$2, isbn=$3 WHERE id=$4`: overwrites the
three fields of every row matching the id and reports the affected count. -/
def dbExecUpdate (db : DBState) (b : Book) : DBState × Int :=
  let affected := (db.rows.filter (fun r => r.id = b.id)).length
  let newRows := db.rows.map (fun r =>
    if r.id = b.id then { r with title := b.title, author := b.author, isbn := b.isbn }
    else r)
  ({ db with rows := newRows }, (affected : Int))

/-- `Update` run against a healthy database: the table state after the
statement, and the repository's error result. -/
def Repository.UpdateRun (db : DBState) (b : Book) : DBState × Option RepoErr :=
  let (db2, affected) := dbExecUpdate db b
  (db2, Repository.Update (.ok (.ok affected)))

/-- `Repository.Delete` error logic, identical in structure to `Update`:
exec and `RowsAffected` failures pass through unchanged, zero rows affected
becomes `ErrNotFound`. -/
def Repository.Delete (exec : Except StorageErr (Except StorageErr Int)) :
    Option RepoErr :=
  match exec with
  | .error e => some (.passthrough e)
  | .ok rowsAffectedRes =>
    match rowsAffectedRes with
    | .error e => some (.passthrough e)
    | .ok rowsAffected =>
      if rowsAffected = 0 then some .errNotFound else none

/-- Postgres executing `DELETE FROM books WHERE id = $1`. -/
def dbExecDelete (db : DBState) (id : Int) : DBState × Int :=
  let affected := (db.rows.filter (fun r => r.id = id)).length
  ({ db with rows := db.rows.filter (fun r => r.id ≠ id) }, (affected : Int))

/-- `Delete` run against a healthy database. -/
def Repository.DeleteRun (db : DBState) (id : Int) : DBState × Option RepoErr :=
  let (db2, affected) := dbExecDelete db id
  (db2, Repository.Delete (.ok (.ok affected)))

/-! ## Handler layer (`internal/book/handler.go`)

An HTTP response is a transport status code plus a body.  Error paths all
go through `http.Error(w, msg, code)`, whose body is the plain string
`msg`; success paths JSON-encode an entity, a pagination envelope or the
health payload.  Request-body decoding (`json.NewDecoder(...).Decode`) is
modelled by its outcome: `none` for a decode failure, `some v` for a body
that decoded to `v`. -/

/-- A response body as the handler writes it. -/
inductive ResponseBody where
  | text (s : String)
  | jsonBook (b : Book)
  | jsonPagination (totalCount : Int) (pageCount : Int) (data : List Book)
  | jsonStatus (s : StatusResponse)
  | empty
deriving Repr, DecidableEq

/-- An HTTP response: transport status code and body. -/
structure HTTPResponse where
  status : Nat
  body : ResponseBody
deriving Repr, DecidableEq

/-- `strconv.Atoi`: an optional sign followed by at least one decimal
digit, consuming the whole string; anything else is an error (`none`). -/
def atoiDigits (cs : List Char) : Option Nat :=
  match cs with
  | [] => none
  | _ =>
    cs.foldl
      (fun acc c =>
        match acc with
        | none => none
        | some n => if c.isDigit then some (n * 10 + (c.toNat - 48)) else none)
      (some 0)

/-- `strconv.Atoi` on a string, with sign handling. -/
def atoi (s : String) : Option Int :=
  match s.data with
  | [] => none
  | '+' :: rest => (atoiDigits rest).map (fun n => (n : Int))
  | '-' :: rest => (atoiDigits rest).map (fun n => -(n : Int))
  | cs => (atoiDigits cs).map (fun n => (n : Int))

/-- Modelled from the spec: `utils.StatusOK` of the missing `utils`
package; the payload status field is the string `ok` on a healthy probe. -/
def StatusOK : String := "ok"

/-- Modelled from the spec: `utils.StatusDegraded`; the payload status
field is the string `degraded` on a failed probe. -/
def StatusDegraded : String := "degraded"

/-- Modelled from the spec: `utils.StatusError`, the generic error message
constant the degraded health payload carries in its message field. -/
def StatusError : String := "error"

/-- `Handler.HealthCheck`: builds the default ok payload, pings storage
(the ping outcome is `none` for success, `some msg` for failure), switches
the payload to degraded on failure, and writes status 200 in both cases. -/
def Handler.HealthCheck (pingErr : Option String) (timestamp : String) :
    HTTPResponse :=
  let response : StatusResponse :=
    { status := StatusOK, version := "v1.0.0",
      timestamp := timestamp, message := StatusOK }
  match pingErr with
  | some _ =>
    { status := 200,
      body := .jsonStatus { response with status := StatusDegraded, message := StatusError } }
  | none => { status := 200, body := .jsonStatus response }

/-- `Handler.GetBooks`: decode failure gives 400 with a structured error
body; a repository error gives 500 with the generic message
`internal error`; success serializes the pagination envelope. -/
def Handler.GetBooks (db : DBState) (body : Option PaginationRequest) :
    HTTPResponse :=
  match body with
  | none => { status := 400, body := .text "\x7b\x22error\x22: \x22invalid request\x22\x7d" }
  | some req =>
    match Repository.ListAllBooks db req with
    | .error _ => { status := 500, body := .text "internal error" }
    | .ok (books, pageCount, totalCount) =>
      { status := 200, body := .jsonPagination totalCount pageCount books }

/-- `Handler.GetBookByID`: a non-numeric path id gives 400; `ErrNotFound`
gives 404 with `book not found`; any other repository error gives 500 with
the generic `internal server error`; success serializes the book. -/
def Handler.GetBookByID (db : DBState) (idStr : String) : HTTPResponse :=
  match atoi idStr with
  | none => { status := 400, body := .text "invalid book ID" }
  | some id =>
    match Repository.GetByIDRun db id with
    | .error e =>
      if e = .errNotFound then { status := 404, body := .text "book not found" }
      else { status := 500, body := .text "internal server error" }
    | .ok b => { status := 200, body := .jsonBook b }

/-- `Handler.CreateBook`: decode failure gives 400 `invalid JSON`;
otherwise the entity is inserted (the model runs against a healthy
database, where the insert succeeds), and the handler answers 201 echoing
the entity with its storage-assigned id.  Returns the new table state. -/
def Handler.CreateBook (db : DBState) (body : Option Book) :
    DBState × HTTPResponse :=
  match body with
  | none => (db, { status := 400, body := .text "invalid JSON" })
  | some b =>
    let (db2, newBook) := Repository.CreateRun db b
    (db2, { status := 201, body := .jsonBook newBook })

/-- The error-to-response mapping of `Handler.UpdateBook` after the
repository call: any repository error, `ErrNotFound` included, becomes
`http.Error(w, err.Error(), 500)` — status 500 with the error text as the
body; success echoes the updated entity with status 200. -/
def Handler.UpdateBookRespond (updateResult : Option RepoErr) (b : Book) :
    HTTPResponse :=
  match updateResult with
  | some e => { status := 500, body := .text e.errorText }
  | none => { status := 200, body := .jsonBook b }

/-- `Handler.UpdateBook`: the path-id parse error is discarded
(`id, _ := strconv.Atoi(...)`, an unparsable id yields 0); a body decode
failure gives 400 `invalid JSON`; the body entity's id is overwritten by
the path id; the repository `Update` result is mapped by
`Handler.UpdateBookRespond`.  Returns the new table state. -/
def Handler.UpdateBook (db : DBState) (idStr : String) (body : Option Book) :
    DBState × HTTPResponse :=
  let id := (atoi idStr).getD 0
  match body with
  | none => (db, { status := 400, body := .text "invalid JSON" })
  | some b0 =>
    let b : Book := { b0 with id := id }
    let (db2, err) := Repository.UpdateRun db b
    (db2, Handler.UpdateBookRespond err b)

/-- The error-to-response mapping of `Handler.DeleteBook`: any repository
error becomes `http.Error(w, err.Error(), 500)`; success is 204 with an
empty body. -/
def Handler.DeleteBookRespond (deleteResult : Option RepoErr) : HTTPResponse :=
  match deleteResult with
  | some e => { status := 500, body := .text e.errorText }
  | none => { status := 204, body := .empty }

/-- `Handler.DeleteBook`: the path-id parse error is discarded (an
unparsable id yields 0); the repository `Delete` result is mapped by
`Handler.DeleteBookRespond`.  Returns the new table state. -/
def Handler.DeleteBook (db : DBState) (idStr : String) :
    DBState × HTTPResponse :=
  let id := (atoi idStr).getD 0
  let (db2, err) := Repository.DeleteRun db id
  (db2, Handler.DeleteBookRespond err)

/-! ## Claims -/

/-- C1: the claim says GetByID, Update and Delete all map a missing id to
transport status 404.  On the code, only `GetBookByID` answers 404;
`UpdateBook` and `DeleteBook` map the repository's `ErrNotFound` to 500:
on an empty table, GET /books/7 gives 404 but PUT /books/7 and
DELETE /books/7 give 500 (never a success status). -/
theorem notFound_status_not_uniform_on_write_paths :
    (Handler.GetBookByID ⟨[], 1⟩ "7").status = 404 ∧
    ((Handler.UpdateBook ⟨[], 1⟩ "7"
        (some ⟨0, "Dune", "Frank Herbert", "0441013597"⟩)).2).status = 500 ∧
    ((Handler.DeleteBook ⟨[], 1⟩ "7").2).status = 500 := by
  refine ⟨?_, ?_, ?_⟩ <;> decide

/-- C2: the claim says a repository error never puts the underlying
storage error text in the response body.  On the code, `UpdateBook` and
`DeleteBook` answer `http.Error(w, err.Error(), 500)`: a storage failure
with text `pq: connection refused` propagated unchanged through the
repository arrives verbatim in the response body of both handlers. -/
theorem storage_error_text_reaches_response_body :
    Handler.UpdateBookRespond
        (Repository.Update (.error (.failure "pq: connection refused")))
        ⟨7, "Dune", "Frank Herbert", "0441013597"⟩
      = ⟨500, .text "pq: connection refused"⟩ ∧
    Handler.DeleteBookRespond
        (Repository.Delete (.error (.failure "pq: connection refused")))
      = ⟨500, .text "pq: connection refused"⟩ := by
  exact ⟨rfl, rfl⟩

/-- C3: the claim says a non-empty search applies a case-insensitive
substring filter on the books' text fields, so that searching `dun` over
`Dune` and `Foundation` returns only `Dune`.  On the code, the filter
clause is `currency ILIKE ?`: it binds the column `currency`, which is not
a column of the `books` table, so against the real schema the query fails
and the handler answers 500 — not a one-element page with `Dune`.  With an
empty search no filter is applied and both books come back. -/
theorem search_filter_binds_currency_column :
    whereSQL "dun" = "1=1 AND currency ILIKE ?" ∧
    "currency" ∉ booksTableColumns ∧
    Repository.ListAllBooks
        ⟨[⟨1, "Dune", "Frank Herbert", "0441013597"⟩,
          ⟨2, "Foundation", "Isaac Asimov", "0553293354"⟩], 3⟩
        ⟨1, 10, "dun"⟩
      = .error (.failure "ERROR: column \x22currency\x22 does not exist (SQLSTATE 42703)") ∧
    Handler.GetBooks
        ⟨[⟨1, "Dune", "Frank Herbert", "0441013597"⟩,
          ⟨2, "Foundation", "Isaac Asimov", "0553293354"⟩], 3⟩
        (some ⟨1, 10, "dun"⟩)
      = ⟨500, .text "internal error"⟩ ∧
    Repository.ListAllBooks
        ⟨[⟨1, "Dune", "Frank Herbert", "0441013597"⟩,
          ⟨2, "Foundation", "Isaac Asimov", "0553293354"⟩], 3⟩
        ⟨1, 10, ""⟩
      = .ok ([⟨1, "Dune", "Frank Herbert", "0441013597"⟩,
              ⟨2, "Foundation", "Isaac Asimov", "0553293354"⟩], 2, 2) := by
  refine ⟨?_, ?_, ?_, ?_, ?_⟩ <;> first | decide | rfl

/-- C8: HealthCheck answers transport status 200 in both the healthy and
the degraded case; the payload's status field is `ok` when the storage
ping succeeds and `degraded` when it fails. -/
theorem healthCheck_always_200 :
    ∀ (ts msg : String),
      Handler.HealthCheck none ts = ⟨200, .jsonStatus ⟨"ok", "v1.0.0", ts, "ok"⟩⟩ ∧
      Handler.HealthCheck (some msg) ts
        = ⟨200, .jsonStatus ⟨"degraded", "v1.0.0", ts, "error"⟩⟩ := by
  intro ts msg
  exact ⟨rfl, rfl⟩

/-- C9: in UpdateBook the path id is authoritative: the body's id field is
overwritten before the repository is called, so two requests to the same
path that differ only in the body's id field produce the same table state
and the same response. -/
theorem update_body_id_ignored :
    ∀ (db : DBState) (idStr : String) (t a i : String) (id1 id2 : Int),
      Handler.UpdateBook db idStr (some ⟨id1, t, a, i⟩) =
        Handler.UpdateBook db idStr (some ⟨id2, t, a, i⟩) := by
  intro db idStr t a i id1 id2
  rfl

/-- Helper: `GetByIDRun` yields `ErrNotFound` exactly when no row has the
requested id. -/
lemma getByIDRun_notFound_iff (db : DBState) (id : Int) :
    Repository.GetByIDRun db id = .error .errNotFound ↔
      ∀ r ∈ db.rows, r.id ≠ id := by
  unfold Repository.GetByIDRun Repository.GetByID dbSelectByID
  cases h : db.rows.find? (fun b => b.id = id) with
  | none =>
    rw [List.find?_eq_none] at h
    constructor
    · intro _ r hr
      simpa using h r hr
    · intro _
      rfl
  | some b =>
    have hmem := List.mem_of_find?_eq_some h
    have hp : b.id = id := by simpa using List.find?_some h
    constructor
    · intro hcontra
      simp at hcontra
    · intro hall
      exact absurd hp (hall b hmem)

/-- Helper: the filter on a given id is empty exactly when no row has it. -/
lemma filter_id_eq_nil_iff (db : DBState) (id : Int) :
    db.rows.filter (fun r => r.id = id) = [] ↔ ∀ r ∈ db.rows, r.id ≠ id := by
  rw [List.filter_eq_nil_iff]
  simp

/-- Helper: `UpdateRun` yields `ErrNotFound` exactly when no row has the
entity's id. -/
lemma updateRun_notFound_iff (db : DBState) (bk : Book) :
    (Repository.UpdateRun db bk).2 = some .errNotFound ↔
      ∀ r ∈ db.rows, r.id ≠ bk.id := by
  show (if ((db.rows.filter (fun r => r.id = bk.id)).length : Int) = 0
        then some RepoErr.errNotFound else none) = some RepoErr.errNotFound ↔ _
  rw [← filter_id_eq_nil_iff db bk.id]
  by_cases h : db.rows.filter (fun r => r.id = bk.id) = []
  · simp [h]
  · have : ((db.rows.filter (fun r => r.id = bk.id)).length : Int) ≠ 0 := by
      simpa [Int.natCast_eq_zero, List.length_eq_zero] using h
    simp [this, h]

/-- Helper: `DeleteRun` yields `ErrNotFound` exactly when no row has the
requested id. -/
lemma deleteRun_notFound_iff (db : DBState) (id : Int) :
    (Repository.DeleteRun db id).2 = some .errNotFound ↔
      ∀ r ∈ db.rows, r.id ≠ id := by
  show (if ((db.rows.filter (fun r => r.id = id)).length : Int) = 0
        then some RepoErr.errNotFound else none) = some RepoErr.errNotFound ↔ _
  rw [← filter_id_eq_nil_iff db id]
  by_cases h : db.rows.filter (fun r => r.id = id) = []
  · simp [h]
  · have : ((db.rows.filter (fun r => r.id = id)).length : Int) ≠ 0 := by
      simpa [Int.natCast_eq_zero, List.length_eq_zero] using h
    simp [this, h]

/-- C4: no repository operation swallows an error.  `GetByID` maps
`sql.ErrNoRows` — and nothing else — to `ErrNotFound` and passes any other
scan failure through unchanged; `Update` and `Delete` pass exec and
rows-affected failures through unchanged and yield `ErrNotFound` exactly
when zero rows were affected; against a healthy table each operation
yields `ErrNotFound` exactly when no row carries the targeted id. -/
theorem repository_never_swallows_errors :
    ∀ (b bk : Book) (e : StorageErr) (n : Int)
      (exec : Except StorageErr (Except StorageErr Int)) (db : DBState) (id : Int),
      Repository.GetByID (.ok b) = .ok b ∧
      Repository.GetByID (.error .sqlErrNoRows) = .error .errNotFound ∧
      (Repository.GetByID (.error e) = .error .errNotFound ↔ e = .sqlErrNoRows) ∧
      (e ≠ .sqlErrNoRows → Repository.GetByID (.error e) = .error (.passthrough e)) ∧
      Repository.Update (.error e) = some (.passthrough e) ∧
      Repository.Update (.ok (.error e)) = some (.passthrough e) ∧
      Repository.Update (.ok (.ok n)) = (if n = 0 then some .errNotFound else none) ∧
      (Repository.Update exec = some .errNotFound ↔ exec = .ok (.ok 0)) ∧
      Repository.Delete (.error e) = some (.passthrough e) ∧
      Repository.Delete (.ok (.error e)) = some (.passthrough e) ∧
      Repository.Delete (.ok (.ok n)) = (if n = 0 then some .errNotFound else none) ∧
      (Repository.Delete exec = some .errNotFound ↔ exec = .ok (.ok 0)) ∧
      (Repository.GetByIDRun db id = .error .errNotFound ↔ ∀ r ∈ db.rows, r.id ≠ id) ∧
      ((Repository.UpdateRun db bk).2 = some .errNotFound ↔ ∀ r ∈ db.rows, r.id ≠ bk.id) ∧
      ((Repository.DeleteRun db id).2 = some .errNotFound ↔ ∀ r ∈ db.rows, r.id ≠ id) := by
  intro b bk e n exec db id
  refine ⟨rfl, rfl, ?_, ?_, rfl, rfl, rfl, ?_, rfl, rfl, rfl, ?_,
    getByIDRun_notFound_iff db id, updateRun_notFound_iff db bk,
    deleteRun_notFound_iff db id⟩
  · cases e <;> simp [Repository.GetByID]
  · intro he
    cases e with
    | sqlErrNoRows => exact absurd rfl he
    | failure msg => rfl
  · rcases exec with e' | r
    · simp [Repository.Update]
    · rcases r with e' | m
      · simp [Repository.Update]
      · by_cases hm : m = 0 <;> simp [Repository.Update, hm]
  · rcases exec with e' | r
    · simp [Repository.Delete]
    · rcases r with e' | m
      · simp [Repository.Delete]
      · by_cases hm : m = 0 <;> simp [Repository.Delete, hm]

/-- C4 witness: the conditional conjuncts evaluated at a concrete input. -/
theorem repository_never_swallows_errors_witness :
    Repository.GetByID (.error (.failure "link down"))
      = .error (.passthrough (.failure "link down")) :=
  ((repository_never_swallows_errors ⟨1, "t", "a", "i"⟩ ⟨1, "t", "a", "i"⟩
      (.failure "link down") 0 (.ok (.ok 0)) ⟨[], 1⟩ 1).2.2.2.1) (by decide)

/-- C5: ListAllBooks computes the query limit as page_size with 10
substituted when page_size is zero, and the offset as (page-1)*limit; page
has no lower bound: pageSize 0 behaves exactly as pageSize 10, and page 0
produces a negative offset that is handed to storage unclamped (where
Postgres rejects it). -/
theorem listAllBooks_pagination_arithmetic :
    ∀ (page pageSize : Int) (search : String) (db : DBState),
      paginationArgs ⟨page, pageSize, search⟩ =
        (if pageSize = 0 then 10 else pageSize,
         (page - 1) * (if pageSize = 0 then 10 else pageSize)) ∧
      Repository.ListAllBooks db ⟨page, 0, search⟩
        = Repository.ListAllBooks db ⟨page, 10, search⟩ ∧
      Repository.ListAllBooks db ⟨0, 5, ""⟩
        = .error (.failure "ERROR: OFFSET must not be negative") := by
  intro page pageSize search db
  refine ⟨rfl, ?_, rfl⟩
  simp [Repository.ListAllBooks, paginationArgs]

/-- C10: a non-numeric path id on the write paths is not rejected with a
client error: the parse error is discarded, the operation proceeds with id
0, reaches the repository, and fails there with `ErrNotFound` mapped to
500 — while `GetBookByID` rejects the same path id with 400. -/
theorem write_paths_ignore_path_id_parse_error :
    ∀ (db : DBState) (idStr : String) (b : Book),
      atoi idStr = none →
      (∀ r ∈ db.rows, r.id ≠ 0) →
      (Handler.UpdateBook db idStr (some b)).2 = ⟨500, .text "book not found"⟩ ∧
      (Handler.DeleteBook db idStr).2 = ⟨500, .text "book not found"⟩ ∧
      Handler.GetBookByID db idStr = ⟨400, .text "invalid book ID"⟩ := by
  intro db idStr b h h0
  have hfilter : db.rows.filter (fun r => r.id = (0 : Int)) = [] :=
    (filter_id_eq_nil_iff db 0).mpr h0
  refine ⟨?_, ?_, ?_⟩
  · simp [Handler.UpdateBook, h, Repository.UpdateRun, dbExecUpdate, hfilter,
      Repository.Update, Handler.UpdateBookRespond, RepoErr.errorText]
  · simp [Handler.DeleteBook, h, Repository.DeleteRun, dbExecDelete, hfilter,
      Repository.Delete, Handler.DeleteBookRespond, RepoErr.errorText]
  · simp [Handler.GetBookByID, h]

/-- C10 witness: PUT and DELETE on `/books/abc` against an empty table. -/
theorem write_paths_ignore_path_id_parse_error_witness :
    (Handler.UpdateBook ⟨[], 1⟩ "abc"
        (some ⟨7, "Dune", "Frank Herbert", "0441013597"⟩)).2
      = ⟨500, .text "book not found"⟩ ∧
    (Handler.DeleteBook ⟨[], 1⟩ "abc").2 = ⟨500, .text "book not found"⟩ ∧
    Handler.GetBookByID ⟨[], 1⟩ "abc" = ⟨400, .text "invalid book ID"⟩ :=
  write_paths_ignore_path_id_parse_error ⟨[], 1⟩ "abc"
    ⟨7, "Dune", "Frank Herbert", "0441013597"⟩ (by decide)
    (by intro r hr; cases hr)

/-- C6: on any successful ListAll the returned page-count equals the
number of rows actually in the page and the total-count is the count of
the whole table under the same (empty) filter, independent of the
pagination window; concretely, over a 5-row table page 1 of size 2 gives
2 rows with total 5 and page 3 of size 2 gives the short final page of 1
row with total 5. -/
theorem listAllBooks_counts :
    ∀ (db : DBState) (req : PaginationRequest) (rows : List Book) (c t : Int),
      (Repository.ListAllBooks db req = .ok (rows, c, t) →
        c = rows.length ∧ t = db.rows.length) ∧
      Repository.ListAllBooks
          ⟨[⟨1, "B1", "A1", "i1"⟩, ⟨2, "B2", "A2", "i2"⟩, ⟨3, "B3", "A3", "i3"⟩,
            ⟨4, "B4", "A4", "i4"⟩, ⟨5, "B5", "A5", "i5"⟩], 6⟩ ⟨1, 2, ""⟩
        = .ok ([⟨1, "B1", "A1", "i1"⟩, ⟨2, "B2", "A2", "i2"⟩], 2, 5) ∧
      Repository.ListAllBooks
          ⟨[⟨1, "B1", "A1", "i1"⟩, ⟨2, "B2", "A2", "i2"⟩, ⟨3, "B3", "A3", "i3"⟩,
            ⟨4, "B4", "A4", "i4"⟩, ⟨5, "B5", "A5", "i5"⟩], 6⟩ ⟨3, 2, ""⟩
        = .ok ([⟨5, "B5", "A5", "i5"⟩], 1, 5) := by
  intro db req rows c t
  refine ⟨?_, rfl, rfl⟩
  intro hok
  unfold Repository.ListAllBooks at hok
  by_cases hs : req.search = ""
  · simp only [hs, dbCountQuery, dbDataQuery, ne_eq, not_true_eq_false,
      if_false, ite_false] at hok
    split at hok
    · exact absurd hok (by simp)
    · simp only [Except.ok.injEq, Prod.mk.injEq] at hok
      obtain ⟨h1, h2, h3⟩ := hok
      subst h1
      subst h2
      subst h3
      exact ⟨rfl, rfl⟩
  · simp [dbCountQuery, hs] at hok

/-- C6 witness: the general count property applied to page 1 of size 2
over the 5-row table. -/
theorem listAllBooks_counts_witness :
    (2 : Int) = ([⟨1, "B1", "A1", "i1"⟩, ⟨2, "B2", "A2", "i2"⟩] : List Book).length ∧
    (5 : Int) = ([⟨1, "B1", "A1", "i1"⟩, ⟨2, "B2", "A2", "i2"⟩, ⟨3, "B3", "A3", "i3"⟩,
      ⟨4, "B4", "A4", "i4"⟩, ⟨5, "B5", "A5", "i5"⟩] : List Book).length :=
  (listAllBooks_counts
      ⟨[⟨1, "B1", "A1", "i1"⟩, ⟨2, "B2", "A2", "i2"⟩, ⟨3, "B3", "A3", "i3"⟩,
        ⟨4, "B4", "A4", "i4"⟩, ⟨5, "B5", "A5", "i5"⟩], 6⟩ ⟨1, 2, ""⟩
      [⟨1, "B1", "A1", "i1"⟩, ⟨2, "B2", "A2", "i2"⟩] 2 5).1 rfl

/-- C7: on a well-formed table, creating any book assigns the next
sequence id (written back into the entity), the handler answers 201
echoing the id-populated entity, the id is positive, and getting that id
afterwards returns an entity with the same title, author and ISBN. -/
theorem create_roundtrip :
    ∀ (db : DBState) (b : Book),
      db.WF →
      (Handler.CreateBook db (some b)).2
        = ⟨201, .jsonBook ⟨db.nextId, b.title, b.author, b.isbn⟩⟩ ∧
      0 < db.nextId ∧
      Repository.GetByIDRun (Handler.CreateBook db (some b)).1 db.nextId
        = .ok ⟨db.nextId, b.title, b.author, b.isbn⟩ := by
  intro db b hwf
  obtain ⟨h1, h2⟩ := hwf
  have hnone : db.rows.find? (fun r => r.id = db.nextId) = none := by
    rw [List.find?_eq_none]
    intro r hr
    have := h2 r hr
    simp only [decide_eq_true_eq]
    omega
  refine ⟨rfl, by omega, ?_⟩
  have hstate : (Handler.CreateBook db (some b)).1
      = ⟨db.rows ++ [⟨db.nextId, b.title, b.author, b.isbn⟩], db.nextId + 1⟩ := rfl
  rw [hstate]
  unfold Repository.GetByIDRun dbSelectByID
  rw [List.find?_append, hnone]
  simp [Repository.GetByID, List.find?_cons]

/-- C7 witness: creating a book in the empty table and reading it back. -/
theorem create_roundtrip_witness :
    (Handler.CreateBook ⟨[], 1⟩
        (some ⟨0, "Dune", "Frank Herbert", "0441013597"⟩)).2
      = ⟨201, .jsonBook ⟨1, "Dune", "Frank Herbert", "0441013597"⟩⟩ ∧
    (0 : Int) < 1 ∧
    Repository.GetByIDRun
        (Handler.CreateBook ⟨[], 1⟩
          (some ⟨0, "Dune", "Frank Herbert", "0441013597"⟩)).1 1
      = .ok ⟨1, "Dune", "Frank Herbert", "0441013597"⟩ :=
  create_roundtrip ⟨[], 1⟩ ⟨0, "Dune", "Frank Herbert", "0441013597"⟩ (by decide)

end PublicLibrary
